import Mathlib

/-!
Shallow embedding of the answer-strategy engine (`src/rag_system.py`), the
ingestion pipeline (`src/document_processor.py`) and the HTTP-facing glue
(`main.py`) of the RAG repository, with proofs settling the frozen claims
about them.  Pure data flow is modelled directly; external collaborators
(the LLM provider, the text splitter, the extraction libraries, the vector
store) are parameters, exactly at the call boundaries the source uses.
-/

namespace RagModel

/-- Python `str.strip()`: remove leading and trailing whitespace. -/
def pyStrip (s : String) : String :=
  ⟨((s.data.dropWhile Char.isWhitespace).reverse.dropWhile Char.isWhitespace).reverse⟩

/-- Python `str.lower()` (ASCII case folding, enough for the marker words). -/
def pyLower (s : String) : String := ⟨s.data.map Char.toLower⟩

/-- Character-list prefix test (executable). -/
def charsPrefixOf : List Char → List Char → Bool
  | [], _ => true
  | _ :: _, [] => false
  | a :: as, b :: bs => a == b && charsPrefixOf as bs

/-- Character-list infix test (executable). -/
def charsInfixOf (needle : List Char) : List Char → Bool
  | [] => charsPrefixOf needle []
  | b :: bs => charsPrefixOf needle (b :: bs) || charsInfixOf needle bs

/-- Python `needle in hay` substring test, over the character lists. -/
def pyContains (hay needle : String) : Bool :=
  charsInfixOf needle.data hay.data

/-- Python slice `s[:n]` (character based, like Lean code points). -/
def pySlice (s : String) (n : Nat) : String := ⟨s.data.take n⟩

/-- Python `len(s)` in characters. -/
def pyLen (s : String) : Nat := s.data.length

/-- Outcome of one chat-completion round trip inside `DeepSeekLLM._acall`
(rag_system.py lines 78-101): either the provider returns message content,
or a transport/timeout/non-success error is raised inside the call. -/
inductive GenOutcome where
  | ok (text : String)
  | fail (err : String)
deriving DecidableEq

/-- The three prompt templates of `EnhancedRAGSystem`, keyed by their
`input_variables`; the fixed instruction text of each template affects no
claim and is elided. -/
inductive Prompt where
  | doc (question context : String)
  | general (question : String)
  | hybrid (question context generalKnowledge : String)
deriving DecidableEq

/-- The apology string built by the `except` branch of `DeepSeekLLM._call`
and `_acall`: provider errors are converted to text, never re-raised. -/
def apologyMsg (e : String) : String :=
  "I apologize, but I encountered an error while processing your request: " ++ e

/-- `DeepSeekLLM._acall` as used through an `LLMChain`: the provider text is
stripped on success; an exception is caught and rendered as the apology. -/
def llmText (llm : Prompt → GenOutcome) (p : Prompt) : String :=
  match llm p with
  | .ok t => pyStrip t
  | .fail e => apologyMsg e

/-- A retrieved document: `langchain.schema.Document` (content plus the
`source` metadata entry) together with the dynamically probed `score`
attribute, read as `getattr(doc, 'score', 1.0)`. -/
structure Doc where
  page_content : String := ""
  source : Option String := none
  score : Option ℚ := none
deriving DecidableEq

/-- The result dictionaries produced by the strategy engine; a field is
`none` when the Python dict lacks the key.  Wall-clock timing fields are
not modelled. -/
structure RagResult where
  answer : Option String := none
  relevance : Option String := none
  source_type : Option String := none
  sources_used : Option Nat := none
  fallback_reason : Option String := none
  strategy_used : Option String := none
deriving DecidableEq

/-- Default `min_relevance_score` of `generate_answer_from_docs` (0.5). -/
def min_relevance_score : ℚ := mkRat 1 2

/-- Marker words of `intelligent_answer` (rag_system.py lines 337-338). -/
def specificMarkers : List String :=
  ["document", "file", "uploaded", "this", "these", "according to"]

/-- `any(word in question_lower for word in [...])` on the lowered question. -/
def isSpecificQuery (question : String) : Bool :=
  specificMarkers.any fun w => pyContains (pyLower question) w

/-- The `relevant_docs` filter of `generate_answer_from_docs` (lines
211-216): documents whose probed score reaches the threshold. -/
def relevantDocs (documents : List Doc) : List Doc :=
  documents.filter fun d => min_relevance_score ≤ d.score.getD 1

/-- The combined `context` block of `generate_answer_from_docs` (lines
227-233): source label plus content per qualifying document, joined by the
distinct delimiter. -/
def docsContext (documents : List Doc) : String :=
  String.intercalate "\n---\n" <| (relevantDocs documents).enum.map fun p =>
    "Source: " ++ p.2.source.getD (s!"Document {p.1 + 1}") ++
      "\nContent: " ++ p.2.page_content ++ "\n"

/-- `EnhancedRAGSystem.generate_answer_from_docs` (lines 205-255): filter
documents by relevance score, return a no-answer result when nothing
qualifies, else issue one generation call over the combined context.  The
second component counts LLM generation calls. -/
def generate_answer_from_docs (llm : Prompt → GenOutcome) (question : String)
    (documents : List Doc) : RagResult × Nat :=
  let relevant_docs := relevantDocs documents
  if relevant_docs = [] then
    ({ answer := none, relevance := some "low", sources_used := some 0 }, 0)
  else
    let context := docsContext documents
    ({ answer := some (pyStrip (llmText llm (.doc question context))),
       relevance := some (if 2 ≤ relevant_docs.length then "high" else "medium"),
       sources_used := some relevant_docs.length }, 1)

/-- `EnhancedRAGSystem.generate_general_answer` (lines 257-276). -/
def generate_general_answer (llm : Prompt → GenOutcome) (question : String) :
    RagResult × Nat :=
  ({ answer := some (pyStrip (llmText llm (.general question))),
     source_type := some "general_knowledge" }, 1)

/-- Document context of `generate_hybrid_answer`: top 3 documents only. -/
def hybridDocContext (documents : List Doc) : String :=
  String.intercalate "\n\n" <| (documents.take 3).map fun d =>
    "Document: " ++ d.source.getD "Unknown" ++ "\n" ++ d.page_content

/-- The truncation applied to the general-knowledge answer before it is used
as supplementary hybrid context (rag_system.py line 291). -/
def truncate500 (s : String) : String :=
  if 500 < pyLen s then pySlice s 500 ++ "..." else s

/-- `EnhancedRAGSystem.generate_hybrid_answer` (lines 278-315): top-3
document context, truncated general-knowledge answer as supplementary
context, then one further generation call. -/
def generate_hybrid_answer (llm : Prompt → GenOutcome) (question : String)
    (documents : List Doc) : RagResult × Nat :=
  let doc_context := hybridDocContext documents
  let general := generate_general_answer llm question
  let general_knowledge := truncate500 (general.1.answer.getD "")
  ({ answer := some (pyStrip (llmText llm (.hybrid question doc_context general_knowledge))),
     source_type := some "hybrid",
     sources_used := some documents.length }, general.2 + 1)

/-- The `strategy == "auto"` resolution block of `intelligent_answer`
(lines 341-354): returns the resolved strategy, the `final_result` already
computed by the docs-first probe (if any), and the generation calls spent. -/
def autoResolve (llm : Prompt → GenOutcome) (question : String)
    (documents : List Doc) : String × Option RagResult × Nat :=
  if documents = [] then ("general_only", none, 0)
  else if isSpecificQuery question then ("docs_only", none, 0)
  else
    let probe := generate_answer_from_docs llm question documents
    if probe.1.relevance = some "high" ∨ probe.1.relevance = some "medium" then
      ("docs_only", some probe.1, probe.2)
    else ("hybrid", none, probe.2)

/-- The strategy-execution block of `intelligent_answer` (lines 356-371);
`preset` plays the role of the `'final_result' in locals()` check.  An
falsy (`None` or empty) docs answer triggers the general-knowledge
fallback with its recorded `fallback_reason`. -/
def execStrategy (llm : Prompt → GenOutcome) (question : String)
    (documents : List Doc) (strategy : String) (preset : Option RagResult) :
    RagResult × Nat :=
  if strategy = "docs_only" ∧ documents ≠ [] then
    let fr := match preset with
      | some r => (r, 0)
      | none => generate_answer_from_docs llm question documents
    if fr.1.answer.getD "" = "" then
      let g := generate_general_answer llm question
      ({ g.1 with fallback_reason := some "low_document_relevance" }, fr.2 + g.2)
    else fr
  else if strategy = "hybrid" ∧ documents ≠ [] then
    generate_hybrid_answer llm question documents
  else
    generate_general_answer llm question

/-- `EnhancedRAGSystem.intelligent_answer` (lines 317-377) on the full
LangChain path (`railway_mode = False`); an absent (`None`) document list
behaves exactly like `[]` (both are falsy at every use).  The second
component counts generation calls. -/
def intelligent_answer (llm : Prompt → GenOutcome) (question : String)
    (documents : List Doc) (strategy : String) : RagResult × Nat :=
  let resolved := if strategy = "auto" then autoResolve llm question documents
    else (strategy, none, 0)
  let exec := execStrategy llm question documents resolved.1 resolved.2.1
  ({ exec.1 with strategy_used := some resolved.1 }, resolved.2.2 + exec.2)

/-- `is_from_uploaded_docs` as computed by `query_documents` in main.py
line 412: the result dict's `source_type` differs from
`"general_knowledge"`. -/
def is_from_uploaded_docs (r : RagResult) : Bool :=
  r.source_type != some "general_knowledge"

/-- `POST /query` (main.py lines 349-419) reduced to its strategy-relevant
skeleton: the precondition raise, the forced strategy, the engine call, and
the `is_from_uploaded_docs` computation.  `completedCount` is the number of
completed Job rows, `retrieved` the similarity-search result (always a
list, possibly empty).  The endpoint's blanket `except` wrapper rethrows
the precondition error with status 500, as modelled for `upload_file`; only
the success path matters to the claims. -/
def query_documents (llm : Prompt → GenOutcome) (question : String)
    (completedCount : Nat) (useUploadedDocsOnly : Bool)
    (retrieved : List Doc) : Except (Nat × String) (RagResult × Bool) :=
  if completedCount = 0 ∧ useUploadedDocsOnly then
    .error (400, "No processed documents available. Please upload and process documents first.")
  else
    let strategy := if useUploadedDocsOnly then "docs_only" else "auto"
    let result := (intelligent_answer llm question retrieved strategy).1
    .ok (result, is_from_uploaded_docs result)

/-- Python `filename.split('.')[-1]`: everything after the last dot, or the
whole name when there is no dot. -/
def extOf (filename : String) : String :=
  ⟨(filename.data.reverse.takeWhile (· ≠ '.')).reverse⟩

/-- `allowed_types` of `upload_file` (main.py line 94). -/
def allowed_types : List String := ["pdf", "docx", "doc", "txt", "csv", "xlsx"]

/-- The validation raises of the `try:` block of `upload_file` (main.py
lines 89-113), all of which occur before the Job row is added: missing
filename, unsupported extension, oversize content. -/
def uploadValidate (filename : String) (size : Nat) : Except (Nat × String) Unit :=
  if filename = "" then .error (400, "No file provided")
  else
    let ext := pyLower (extOf filename)
    if ¬ allowed_types.contains ext then
      .error (400, "File type \x27" ++ ext ++
        "\x27 not supported. Allowed: [\x27pdf\x27, \x27docx\x27, \x27doc\x27, \x27txt\x27, \x27csv\x27, \x27xlsx\x27]")
    else if 10 * 1024 * 1024 < size then
      .error (400, "File too large. Maximum size is 10MB")
    else .ok ()

/-- `POST /upload` (main.py lines 82-165).  The blanket
`except Exception: raise HTTPException(500, str(e))` also catches the
endpoint's own 400 `HTTPException`s, because Starlette's `HTTPException`
subclasses `Exception`; its `str()` is the status code, a colon and a
space, then the detail.  The boolean records whether a Job row was added
(`db.add` runs only after all validation raises). -/
def upload_file (filename : String) (size : Nat) :
    Except (Nat × String) Unit × Bool :=
  match uploadValidate filename size with
  | .ok _ => (.ok (), true)
  | .error e => (.error (500, s!"{e.1}: {e.2}"), false)

/-- Batch constants of `DocumentProcessor.process_document`
(document_processor.py lines 156, 166): `batch_size = 5`,
`max_retries = 2`. -/
def batch_size : Nat := 5

/-- `total_batches = (len(documents) + batch_size - 1) // batch_size`. -/
def total_batches (n : Nat) : Nat := (n + batch_size - 1) / batch_size

/-- `batch_ids`: one externally assigned vector identifier per chunk of the
batch, encoding the parent document id and the chunk ordinal. -/
def batchIds (docId n b : Nat) : List String :=
  (List.range' (batch_size * b) (min (batch_size * (b + 1)) n - batch_size * b)).map
    fun j => s!"{docId}_{j}"

/-- The per-batch progress value `50 + int((current_batch / total_batches) * 40)`
(line 191), with `current_batch = b + 1`. -/
def batchProgress (T b : Nat) : Nat := 50 + ((b + 1) * 40) / T

/-- State threaded through the batch loop: vectorstore availability
(`self.vectorstore` being set), accumulated `vector_ids`, progress updates
issued, and every `add_documents` invocation logged as
(batch index, attempt index). -/
structure BatchState where
  vs : Bool
  ids : List String
  updates : List Nat
  calls : List (Nat × Nat)
deriving DecidableEq

/-- The retry loop for one batch (lines 169-184): up to `max_retries = 2`
attempts; returns success and the logged attempts.  `ok b a` tells whether
`vectorstore.add_documents` succeeds for batch `b` at attempt `a`. -/
def attemptBatch (ok : Nat → Nat → Bool) (b : Nat) : Bool × List (Nat × Nat) :=
  if ok b 0 then (true, [(b, 0)])
  else if ok b 1 then (true, [(b, 0), (b, 1)])
  else (false, [(b, 0), (b, 1)])

/-- One iteration of the batch loop (lines 159-195).  Exhausted retries set
`self.vectorstore = None` and the subsequent
`if not success and not self.vectorstore: break` leaves the remaining
batches unprocessed; a loop iteration after the break is modelled as a
no-op. -/
def stepBatch (ok : Nat → Nat → Bool) (docId n T : Nat)
    (st : BatchState) (b : Nat) : BatchState :=
  if st.vs then
    let a := attemptBatch ok b
    if a.1 then
      { vs := true, ids := st.ids ++ batchIds docId n b,
        updates := st.updates ++ [batchProgress T b], calls := st.calls ++ a.2 }
    else
      { vs := false, ids := st.ids, updates := st.updates, calls := st.calls ++ a.2 }
  else st

/-- The whole `for batch_idx in range(0, len(documents), batch_size)` loop. -/
def runBatches (ok : Nat → Nat → Bool) (docId n : Nat) : BatchState :=
  (List.range (total_batches n)).foldl (stepBatch ok docId n (total_batches n))
    { vs := true, ids := [], updates := [], calls := [] }

/-- The result dict of `process_document` (lines 211-226). -/
structure ProcResult where
  success : Bool
  chunk_count : Nat
  vector_ids : List String
  text_length : Option Nat := none
  error : Option String := none
deriving DecidableEq

/-- Output of one `process_document` run: the result dict, the progress
updates issued through the registered callback, the vectorstore
availability after the run (a field of the shared processor object), and
the logged `add_documents` calls. -/
structure ProcOutput where
  result : ProcResult
  updates : List Nat
  vsAfter : Bool
  addCalls : List (Nat × Nat)
deriving DecidableEq

/-- The `except` return of `process_document` (lines 219-226). -/
def failResult (e : String) : ProcResult :=
  { success := false, error := some e, chunk_count := 0, vector_ids := [] }

/-- `DocumentProcessor.process_document` (lines 109-226).  `vs` is the
availability of `self.vectorstore and self.embeddings`; `extracted` the
outcome of `extract_text` (external parsing libraries); `splitText` is
`RecursiveCharacterTextSplitter.split_text` (external library); `ok` the
per-batch, per-attempt outcome of `vectorstore.add_documents`. -/
def process_document (vs : Bool) (ok : Nat → Nat → Bool)
    (extracted : Except String String) (splitText : String → List String)
    (docId : Nat) : ProcOutput :=
  match extracted with
  | .error e => { result := failResult e, updates := [5], vsAfter := vs, addCalls := [] }
  | .ok text =>
    if pyStrip text = "" then
      { result := failResult "No text content extracted from file",
        updates := [5, 25], vsAfter := vs, addCalls := [] }
    else
      let chunks := splitText text
      if chunks = [] then
        { result := failResult "No chunks created from text content",
          updates := [5, 25, 30, 40], vsAfter := vs, addCalls := [] }
      else if vs then
        let st := runBatches ok docId chunks.length
        { result := { success := true, chunk_count := chunks.length,
                      vector_ids := st.ids, text_length := some (pyLen text) },
          updates := [5, 25, 30, 40, 50] ++ st.updates ++ [95, 100],
          vsAfter := st.vs, addCalls := st.calls }
      else
        { result := { success := true, chunk_count := chunks.length,
                      vector_ids := [], text_length := some (pyLen text) },
          updates := [5, 25, 30, 40, 50, 95, 100], vsAfter := vs, addCalls := [] }

/-- `DocumentProcessor.__init__` (lines 20-42): the dimensionality mismatch
between the configured Pinecone index (1024 dims) and the OpenAI embeddings
(1536 dims) is treated as a permanent configuration error; embeddings and
vectorstore are left unset at construction, so every process starts with
indexing disabled. -/
def init_vectorstore_available : Bool := false

/-- One entry of the in-process `progress_store` (main.py lines 33-54);
timestamps and the filename field are not modelled. -/
structure ProgRec where
  progress : Nat
  status : String
deriving DecidableEq

/-- `update_document_progress` (main.py lines 47-54). -/
def update_document_progress (progress : Nat) : ProgRec :=
  { progress := progress, status := if progress < 100 then "processing" else "completed" }

/-- The Job row columns touched by the pipeline; the two `json.dumps` blobs
are modelled by their logical content (`meta_error`, `meta_text_length`);
a `none` column was left untouched. -/
structure JobRow where
  processing_status : String
  chunk_count : Option Nat := none
  vector_ids : Option (List String) := none
  meta_error : Option String := none
  meta_text_length : Option Nat := none
deriving DecidableEq

/-- Result of one background processing run: the terminal Job row, the full
sequence of progress-store records for the job (oldest first, starting with
the pending record written by `upload_file`), the vectorstore availability
afterwards, and the logged `add_documents` calls. -/
structure BackgroundOutput where
  row : JobRow
  trace : List ProgRec
  vsAfter : Bool
  addCalls : List (Nat × Nat)
deriving DecidableEq

/-- `process_document_background` (main.py lines 188-255) together with the
initial pending record of `upload_file` (lines 129-134): on success the row
becomes completed and a final 100 update is pushed; on failure the row
becomes failed and the progress entry is overwritten with progress 0,
status failed, and the error string. -/
def process_document_background (vs : Bool) (ok : Nat → Nat → Bool)
    (extracted : Except String String) (splitText : String → List String)
    (docId : Nat) : BackgroundOutput :=
  let out := process_document vs ok extracted splitText docId
  if out.result.success then
    { row := { processing_status := "completed",
               chunk_count := some out.result.chunk_count,
               vector_ids := some out.result.vector_ids,
               meta_error := none,
               meta_text_length := out.result.text_length },
      trace := { progress := 0, status := "pending" } ::
        ((1 :: out.updates) ++ [100]).map update_document_progress,
      vsAfter := out.vsAfter, addCalls := out.addCalls }
  else
    { row := { processing_status := "failed", meta_error := out.result.error },
      trace := ({ progress := 0, status := "pending" } ::
        (1 :: out.updates).map update_document_progress) ++
        [{ progress := 0, status := "failed" }],
      vsAfter := out.vsAfter, addCalls := out.addCalls }

/-- The monotonicity relation of the progress-store trace: consecutive
records may not decrease the percentage, except for the reset-to-failed
overwrite. -/
def progressMono (a b : ProgRec) : Prop :=
  b.status ≠ "failed" → a.progress ≤ b.progress

instance (a b : ProgRec) : Decidable (progressMono a b) :=
  inferInstanceAs (Decidable (b.status ≠ "failed" → a.progress ≤ b.progress))


/-! ## Helper lemmas -/

/-- A string whose first character is not whitespace does not strip to the
empty string. -/
theorem pyStrip_ne_empty_of_data (s : String) (c : Char) (l : List Char)
    (hd : s.data = c :: l) (hc : c.isWhitespace = false) : pyStrip s ≠ "" := by
  intro h
  have h2 : ((s.data.dropWhile Char.isWhitespace).reverse.dropWhile
      Char.isWhitespace).reverse = ([] : List Char) := congrArg String.data h
  rw [hd, List.dropWhile_cons, hc] at h2
  simp only [Bool.false_eq_true, if_false, List.reverse_eq_nil_iff,
    List.dropWhile_eq_nil_iff] at h2
  have := h2 c (List.mem_reverse.mpr (List.mem_cons_self c l))
  rw [hc] at this
  exact Bool.false_ne_true this

/-- The apology string never strips to empty. -/
theorem pyStrip_apologyMsg_ne (e : String) : pyStrip (apologyMsg e) ≠ "" := by
  refine pyStrip_ne_empty_of_data (apologyMsg e) 'I'
    ((" apologize, but I encountered an error while processing your request: " :
      String).data ++ e.data) ?_ (by decide)
  show ("I apologize, but I encountered an error while processing your request: "
    ++ e).data = _
  rw [String.data_append]
  have hlit : ("I apologize, but I encountered an error while processing your request: " :
      String).data = 'I' ::
      (" apologize, but I encountered an error while processing your request: " :
        String).data := by decide
  rw [hlit]
  rfl

/-- A constant-success provider yields nonempty stripped answers as soon as
its text strips to something nonempty. -/
theorem llm_const_ok_nonempty (t : String) (h : pyStrip (pyStrip t) ≠ "") :
    ∀ p, pyStrip (llmText (fun _ => GenOutcome.ok t) p) ≠ "" := fun _ => h

/-- Some document reaching the threshold makes the relevance filter
nonempty. -/
theorem relevantDocs_ne_nil {documents : List Doc}
    (h : ∃ d ∈ documents, min_relevance_score ≤ d.score.getD 1) :
    relevantDocs documents ≠ [] := by
  obtain ⟨d, hd, hs⟩ := h
  intro hnil
  rw [relevantDocs, List.filter_eq_nil_iff] at hnil
  exact absurd hs (by simpa using hnil d hd)

/-- All documents below the threshold empty the relevance filter. -/
theorem relevantDocs_eq_nil {documents : List Doc}
    (h : ∀ d ∈ documents, d.score.getD 1 < min_relevance_score) :
    relevantDocs documents = [] := by
  rw [relevantDocs, List.filter_eq_nil_iff]
  intro d hd
  simpa using not_le.mpr (h d hd)

/-- `generate_answer_from_docs` when nothing qualifies. -/
theorem gafd_of_nil (llm : Prompt → GenOutcome) (question : String)
    {documents : List Doc} (h : relevantDocs documents = []) :
    generate_answer_from_docs llm question documents =
      ({ answer := none, relevance := some "low", sources_used := some 0 }, 0) := by
  simp [generate_answer_from_docs, h]

/-- `generate_answer_from_docs` when at least one document qualifies. -/
theorem gafd_of_ne_nil (llm : Prompt → GenOutcome) (question : String)
    {documents : List Doc} (h : relevantDocs documents ≠ []) :
    generate_answer_from_docs llm question documents =
      ({ answer := some (pyStrip (llmText llm (.doc question (docsContext documents)))),
         relevance := some (if 2 ≤ (relevantDocs documents).length then "high" else "medium"),
         sources_used := some (relevantDocs documents).length }, 1) := by
  simp [generate_answer_from_docs, h]

/-! ## Claims -/

/-- Claim C3: a docs_only execution filters documents by the 0.5 score
threshold; when none qualifies the docs path returns the no-answer result
(answer none, relevance low), and the caller falls back to the
general-knowledge answer, recording the fallback reason on the returned
result. -/
theorem docs_only_no_qualifying_falls_back
    (llm : Prompt → GenOutcome) (question : String) (documents : List Doc)
    (hne : documents ≠ [])
    (hlow : ∀ d ∈ documents, d.score.getD 1 < min_relevance_score) :
    generate_answer_from_docs llm question documents =
      ({ answer := none, relevance := some "low", sources_used := some 0 }, 0) ∧
    intelligent_answer llm question documents "docs_only" =
      ({ (generate_general_answer llm question).1 with
          fallback_reason := some "low_document_relevance",
          strategy_used := some "docs_only" }, 1) := by
  have hfil : relevantDocs documents = [] := relevantDocs_eq_nil hlow
  refine ⟨gafd_of_nil llm question hfil, ?_⟩
  simp [intelligent_answer, execStrategy, gafd_of_nil llm question hfil, hne,
    generate_general_answer]

/-- Claim C3 witness: one document scoring 0.3 against a successful
provider. -/
theorem docs_only_no_qualifying_falls_back_witness :
    (generate_answer_from_docs (fun _ => GenOutcome.ok "ans") "what is gravity"
        [{ page_content := "c", score := some (mkRat 3 10) }] =
      ({ answer := none, relevance := some "low", sources_used := some 0 }, 0)) ∧
    intelligent_answer (fun _ => GenOutcome.ok "ans") "what is gravity"
        [{ page_content := "c", score := some (mkRat 3 10) }] "docs_only" =
      ({ (generate_general_answer (fun _ => GenOutcome.ok "ans") "what is gravity").1 with
          fallback_reason := some "low_document_relevance",
          strategy_used := some "docs_only" }, 1) :=
  docs_only_no_qualifying_falls_back (fun _ => GenOutcome.ok "ans") "what is gravity"
    [{ page_content := "c", score := some (mkRat 3 10) }]
    (by decide) (by decide)

/-- Claim C10: forcing docs_only with an empty document list executes the
general-knowledge path (no filtering, no fallback marker) while still
reporting strategy docs_only; via POST /query this happens whenever
use_uploaded_docs_only is set, completed documents exist, and retrieval
returns no documents. -/
theorem docs_only_empty_docs_runs_general
    (llm : Prompt → GenOutcome) (question : String) (completedCount : Nat)
    (h : completedCount ≠ 0) :
    intelligent_answer llm question [] "docs_only" =
      ({ (generate_general_answer llm question).1 with
          strategy_used := some "docs_only" }, 1) ∧
    (intelligent_answer llm question [] "docs_only").1.fallback_reason = none ∧
    query_documents llm question completedCount true [] =
      .ok ({ (generate_general_answer llm question).1 with
          strategy_used := some "docs_only" }, false) := by
  have h1 : intelligent_answer llm question [] "docs_only" =
      ({ (generate_general_answer llm question).1 with
          strategy_used := some "docs_only" }, 1) := by
    simp [intelligent_answer, execStrategy, generate_general_answer]
  refine ⟨h1, by rw [h1]; rfl, ?_⟩
  simp [query_documents, h, h1, is_from_uploaded_docs, generate_general_answer]

/-- Claim C10 witness: one completed document, retrieval empty. -/
theorem docs_only_empty_docs_runs_general_witness :
    intelligent_answer (fun _ => GenOutcome.ok "ans") "what is gravity" [] "docs_only" =
      ({ (generate_general_answer (fun _ => GenOutcome.ok "ans") "what is gravity").1 with
          strategy_used := some "docs_only" }, 1) ∧
    (intelligent_answer (fun _ => GenOutcome.ok "ans") "what is gravity" []
        "docs_only").1.fallback_reason = none ∧
    query_documents (fun _ => GenOutcome.ok "ans") "what is gravity" 1 true [] =
      .ok ({ (generate_general_answer (fun _ => GenOutcome.ok "ans") "what is gravity").1 with
          strategy_used := some "docs_only" }, false) :=
  docs_only_empty_docs_runs_general (fun _ => GenOutcome.ok "ans") "what is gravity" 1
    (by decide)

/-- Claim C7: every hybrid execution uses at most the top 3 documents for
context, supplies the general-knowledge answer truncated to 500 characters
(plus an ellipsis marker) as supplementary context, issues exactly two
generation calls (general plus hybrid), and tags the result source_type
hybrid. -/
theorem hybrid_two_calls_top3_truncated (llm : Prompt → GenOutcome)
    (question : String) (documents : List Doc) :
    (generate_hybrid_answer llm question documents).2 = 2 ∧
    (generate_hybrid_answer llm question documents).1.source_type = some "hybrid" ∧
    hybridDocContext documents = hybridDocContext (documents.take 3) ∧
    (generate_hybrid_answer llm question documents).1.answer =
      some (pyStrip (llmText llm (.hybrid question (hybridDocContext documents)
        (truncate500 ((generate_general_answer llm question).1.answer.getD ""))))) ∧
    (∀ s, pyLen (truncate500 s) ≤ 503) := by
  refine ⟨rfl, rfl, ?_, rfl, ?_⟩
  · rw [hybridDocContext, hybridDocContext, List.take_take]
    norm_num
  · intro s
    rw [truncate500]
    split
    · show ((s.data.take 500) ++ "...".data).length ≤ 503
      rw [List.length_append, List.length_take]
      have : (500 ⊓ s.data.length) ≤ 500 := min_le_left _ _
      simp only [List.length_cons, List.length_nil]
      omega
    · next hlen =>
      rw [pyLen] at hlen ⊢
      omega

/-- An always-failing provider renders every prompt as the apology. -/
theorem llmText_fail (e : String) (p : Prompt) :
    llmText (fun _ => GenOutcome.fail e) p = apologyMsg e := rfl

/-- `autoResolve` on an empty document list. -/
theorem autoResolve_empty (llm : Prompt → GenOutcome) (question : String) :
    autoResolve llm question [] = ("general_only", none, 0) := by
  simp [autoResolve]

/-- `autoResolve` on a marker (specific) question with documents. -/
theorem autoResolve_specific {llm : Prompt → GenOutcome} {question : String}
    {documents : List Doc} (hne : documents ≠ [])
    (hspec : isSpecificQuery question = true) :
    autoResolve llm question documents = ("docs_only", none, 0) := by
  rw [autoResolve, if_neg hne, if_pos hspec]

/-- `autoResolve`, non-specific question, docs-first probe kept. -/
theorem autoResolve_probe_kept {llm : Prompt → GenOutcome} {question : String}
    {documents : List Doc} (hne : documents ≠ [])
    (hspec : isSpecificQuery question = false)
    (hfil : relevantDocs documents ≠ []) :
    autoResolve llm question documents =
      ("docs_only", some (generate_answer_from_docs llm question documents).1, 1) := by
  rw [autoResolve, if_neg hne, if_neg (by simp [hspec])]
  rw [gafd_of_ne_nil llm question hfil]
  by_cases h2 : 2 ≤ (relevantDocs documents).length
  · simp [h2]
  · simp [h2]

/-- `autoResolve`, non-specific question, probe relevance low: escalate. -/
theorem autoResolve_probe_low {llm : Prompt → GenOutcome} {question : String}
    {documents : List Doc} (hne : documents ≠ [])
    (hspec : isSpecificQuery question = false)
    (hfil : relevantDocs documents = []) :
    autoResolve llm question documents = ("hybrid", none, 0) := by
  rw [autoResolve, if_neg hne, if_neg (by simp [hspec])]
  rw [gafd_of_nil llm question hfil]
  simp

/-- `intelligent_answer` with a non-auto strategy hint. -/
theorem ia_nonauto {llm : Prompt → GenOutcome} {question : String}
    {documents : List Doc} {strategy : String} (h : strategy ≠ "auto") :
    intelligent_answer llm question documents strategy =
      ({ (execStrategy llm question documents strategy none).1 with
          strategy_used := some strategy },
        0 + (execStrategy llm question documents strategy none).2) := by
  rw [intelligent_answer, if_neg h]

/-- `intelligent_answer` with strategy auto, factored over a resolved
triple. -/
theorem ia_auto_of {llm : Prompt → GenOutcome} {question : String}
    {documents : List Doc} {s : String} {pre : Option RagResult} {c : Nat}
    (h : autoResolve llm question documents = (s, pre, c)) :
    intelligent_answer llm question documents "auto" =
      ({ (execStrategy llm question documents s pre).1 with strategy_used := some s },
        c + (execStrategy llm question documents s pre).2) := by
  rw [intelligent_answer, if_pos rfl, h]

/-- `execStrategy` on the docs path, preset present, truthy answer. -/
theorem exec_docs_kept {llm : Prompt → GenOutcome} {question : String}
    {documents : List Doc} {r : RagResult} (hne : documents ≠ [])
    (hans : r.answer.getD "" ≠ "") :
    execStrategy llm question documents "docs_only" (some r) = (r, 0) := by
  simp only [execStrategy]
  rw [if_pos (And.intro trivial hne), if_neg hans]

/-- `execStrategy` on the docs path, preset present, falsy answer. -/
theorem exec_docs_fallback_some {llm : Prompt → GenOutcome} {question : String}
    {documents : List Doc} {r : RagResult} (hne : documents ≠ [])
    (hans : r.answer.getD "" = "") :
    execStrategy llm question documents "docs_only" (some r) =
      ({ (generate_general_answer llm question).1 with
          fallback_reason := some "low_document_relevance" }, 1) := by
  simp only [execStrategy]
  rw [if_pos (And.intro trivial hne), if_pos hans]
  rfl

/-- `execStrategy` on the docs path, no preset, truthy answer. -/
theorem exec_docs_fresh {llm : Prompt → GenOutcome} {question : String}
    {documents : List Doc} (hne : documents ≠ [])
    (hans : (generate_answer_from_docs llm question documents).1.answer.getD "" ≠ "") :
    execStrategy llm question documents "docs_only" none =
      generate_answer_from_docs llm question documents := by
  simp only [execStrategy]
  rw [if_pos (And.intro trivial hne), if_neg hans]

/-- `execStrategy` on the docs path, no preset, falsy answer: fall back. -/
theorem exec_docs_fallback_none {llm : Prompt → GenOutcome} {question : String}
    {documents : List Doc} (hne : documents ≠ [])
    (hans : (generate_answer_from_docs llm question documents).1.answer.getD "" = "") :
    execStrategy llm question documents "docs_only" none =
      ({ (generate_general_answer llm question).1 with
          fallback_reason := some "low_document_relevance" },
        (generate_answer_from_docs llm question documents).2 + 1) := by
  simp only [execStrategy]
  rw [if_pos (And.intro trivial hne), if_pos hans]
  rfl

/-- `execStrategy` on the hybrid path. -/
theorem exec_hybrid {llm : Prompt → GenOutcome} {question : String}
    {documents : List Doc} {pre : Option RagResult} (hne : documents ≠ []) :
    execStrategy llm question documents "hybrid" pre =
      generate_hybrid_answer llm question documents := by
  simp only [execStrategy]
  rw [if_neg (fun h => absurd h.1 (by decide)), if_pos (And.intro trivial hne)]

/-- `execStrategy` falls through to the general path whenever neither the
docs nor the hybrid guard holds. -/
theorem exec_general {llm : Prompt → GenOutcome} {question : String}
    {documents : List Doc} {strategy : String} {pre : Option RagResult}
    (h1 : ¬(strategy = "docs_only" ∧ documents ≠ []))
    (h2 : ¬(strategy = "hybrid" ∧ documents ≠ [])) :
    execStrategy llm question documents strategy pre =
      generate_general_answer llm question := by
  simp only [execStrategy]
  rw [if_neg h1, if_neg h2]

/-- Execution of any strategy under an always-failing provider has the
stripped apology as its answer. -/
theorem execStrategy_fail_answer (question : String) (documents : List Doc)
    (strategy : String) (preset : Option RagResult) (e : String)
    (hpre : preset = none ∨ preset =
      some (generate_answer_from_docs (fun _ => GenOutcome.fail e) question documents).1) :
    (execStrategy (fun _ => GenOutcome.fail e) question documents strategy preset).1.answer
      = some (pyStrip (apologyMsg e)) := by
  have hgen : (generate_general_answer (fun _ => GenOutcome.fail e) question).1.answer
      = some (pyStrip (apologyMsg e)) := rfl
  have hansd : (generate_answer_from_docs (fun _ => GenOutcome.fail e) question
      documents).1.answer = none ∨
      (generate_answer_from_docs (fun _ => GenOutcome.fail e) question
        documents).1.answer = some (pyStrip (apologyMsg e)) := by
    by_cases hfil : relevantDocs documents = []
    · left; rw [gafd_of_nil _ _ hfil]
    · right; rw [gafd_of_ne_nil _ _ hfil]; rfl
  by_cases hd : strategy = "docs_only" ∧ documents ≠ []
  · obtain ⟨hs, hne⟩ := hd
    subst hs
    have hcase : ∀ r : RagResult, r.answer = none ∨
        r.answer = some (pyStrip (apologyMsg e)) →
        (execStrategy (fun _ => GenOutcome.fail e) question documents "docs_only"
          (some r)).1.answer = some (pyStrip (apologyMsg e)) := by
      intro r hr
      rcases hr with hr | hr
      · rw [exec_docs_fallback_some hne (by rw [hr]; rfl)]
        exact hgen
      · have : r.answer.getD "" ≠ "" := by
          rw [hr]
          simpa using pyStrip_apologyMsg_ne e
        rw [exec_docs_kept hne this]
        exact hr
    rcases hpre with h | h <;> subst h
    · rcases hansd with hr | hr
      · rw [exec_docs_fallback_none hne (by rw [hr]; rfl)]
        exact hgen
      · have : (generate_answer_from_docs (fun _ => GenOutcome.fail e) question
            documents).1.answer.getD "" ≠ "" := by
          rw [hr]
          simpa using pyStrip_apologyMsg_ne e
        rw [exec_docs_fresh hne this]
        exact hr
    · exact hcase _ hansd
  · by_cases hh : strategy = "hybrid" ∧ documents ≠ []
    · obtain ⟨hs, hne⟩ := hh
      subst hs
      rw [exec_hybrid hne]
      rfl
    · rw [exec_general hd hh]
      exact hgen

/-- Claim C8: when every generation call fails (transport error, timeout or
non-success status), intelligent_answer still returns a well-formed result:
the failure is converted into the descriptive apology string placed in the
answer field, and no exception reaches the caller (the embedding is a total
function). -/
theorem generation_failure_yields_apology
    (question : String) (documents : List Doc) (strategy : String) (e : String) :
    (intelligent_answer (fun _ => GenOutcome.fail e) question documents strategy).1.answer
      = some (pyStrip (apologyMsg e)) ∧
    (intelligent_answer (fun _ => GenOutcome.fail e) question documents
      strategy).1.strategy_used ≠ none := by
  refine ⟨?_, by simp [intelligent_answer]⟩
  by_cases hauto : strategy = "auto"
  · subst hauto
    by_cases hemp : documents = []
    · subst hemp
      rw [ia_auto_of (autoResolve_empty _ _)]
      exact execStrategy_fail_answer _ _ _ _ _ (.inl rfl)
    · by_cases hspec : isSpecificQuery question = true
      · rw [ia_auto_of (autoResolve_specific hemp hspec)]
        exact execStrategy_fail_answer _ _ _ _ _ (.inl rfl)
      · have hspec2 : isSpecificQuery question = false := by
          cases h : isSpecificQuery question
          · rfl
          · exact absurd h hspec
        by_cases hfil : relevantDocs documents = []
        · rw [ia_auto_of (autoResolve_probe_low hemp hspec2 hfil)]
          exact execStrategy_fail_answer _ _ _ _ _ (.inl rfl)
        · rw [ia_auto_of (autoResolve_probe_kept hemp hspec2 hfil)]
          exact execStrategy_fail_answer _ _ _ _ _ (.inr rfl)
  · rw [ia_nonauto hauto]
    exact execStrategy_fail_answer _ _ _ _ _ (.inl rfl)

/-- Claim C1 fails as stated: an auto call whose question contains the
marker substring "according to" but whose only document scores 0.3 resolves
to docs_only, yet the docs path finds no qualifying document and falls back
to general knowledge, so the query response's is_from_uploaded_docs is
false, not true. -/
theorem auto_specific_low_score_not_from_docs :
    isSpecificQuery "according to the notes" = true ∧
    (intelligent_answer (fun _ => GenOutcome.ok "ans") "according to the notes"
        [{ page_content := "c", score := some (mkRat 3 10) }] "auto").1.strategy_used
      = some "docs_only" ∧
    is_from_uploaded_docs (intelligent_answer (fun _ => GenOutcome.ok "ans")
        "according to the notes" [{ page_content := "c", score := some (mkRat 3 10) }]
        "auto").1 = false := by
  refine ⟨by decide, by decide, by decide⟩

/-- Claim C1 (amended): with strategy auto, an empty (or absent) document
list resolves to general_only with is_from_uploaded_docs false; a marker
question with documents resolves to docs_only, and is_from_uploaded_docs is
then true provided some document meets the 0.5 threshold and the generated
answer is nonempty (otherwise the docs path yields no answer, falls back to
general knowledge, and the flag is false). -/
theorem auto_strategy_resolution
    (llm : Prompt → GenOutcome) (question : String) (documents : List Doc)
    (hspec : isSpecificQuery question = true)
    (hne : documents ≠ [])
    (hqual : ∃ d ∈ documents, min_relevance_score ≤ d.score.getD 1)
    (hnonempty : ∀ p, pyStrip (llmText llm p) ≠ "") :
    ((intelligent_answer llm question [] "auto").1.strategy_used = some "general_only" ∧
      is_from_uploaded_docs (intelligent_answer llm question [] "auto").1 = false) ∧
    ((intelligent_answer llm question documents "auto").1.strategy_used = some "docs_only" ∧
      is_from_uploaded_docs (intelligent_answer llm question documents "auto").1 = true) := by
  have hemptyIA : intelligent_answer llm question [] "auto" =
      ({ (generate_general_answer llm question).1 with
          strategy_used := some "general_only" }, 0 + 1) := by
    rw [ia_auto_of (autoResolve_empty _ _), exec_general (by simp) (by simp)]
    rfl
  have hfil : relevantDocs documents ≠ [] := relevantDocs_ne_nil hqual
  have hans : (generate_answer_from_docs llm question documents).1.answer.getD "" ≠ "" := by
    rw [gafd_of_ne_nil _ _ hfil]
    simpa using hnonempty (.doc question (docsContext documents))
  have hdocsIA : intelligent_answer llm question documents "auto" =
      ({ (generate_answer_from_docs llm question documents).1 with
          strategy_used := some "docs_only" },
        0 + (generate_answer_from_docs llm question documents).2) := by
    rw [ia_auto_of (autoResolve_specific hne hspec), exec_docs_fresh hne hans]
  refine ⟨⟨by rw [hemptyIA], by rw [hemptyIA]; rfl⟩, ⟨by rw [hdocsIA], ?_⟩⟩
  rw [hdocsIA, is_from_uploaded_docs]
  rw [gafd_of_ne_nil _ _ hfil]
  rfl

/-- Claim C1 witness: marker question, one document scoring 0.9, successful
provider. -/
theorem auto_strategy_resolution_witness :
    ((intelligent_answer (fun _ => GenOutcome.ok "ans") "according to the notes" []
        "auto").1.strategy_used = some "general_only" ∧
      is_from_uploaded_docs (intelligent_answer (fun _ => GenOutcome.ok "ans")
        "according to the notes" [] "auto").1 = false) ∧
    ((intelligent_answer (fun _ => GenOutcome.ok "ans") "according to the notes"
        [{ page_content := "c", score := some (mkRat 9 10) }] "auto").1.strategy_used
        = some "docs_only" ∧
      is_from_uploaded_docs (intelligent_answer (fun _ => GenOutcome.ok "ans")
        "according to the notes" [{ page_content := "c", score := some (mkRat 9 10) }]
        "auto").1 = true) :=
  auto_strategy_resolution (fun _ => GenOutcome.ok "ans") "according to the notes"
    [{ page_content := "c", score := some (mkRat 9 10) }]
    (by decide) (by decide) (by decide) (llm_const_ok_nonempty "ans" (by decide))

/-- Claim C2 fails as stated: for a non-specific question with two documents
scoring 0.6 and 0.7 the docs-first probe classifies relevance high, yet when
the provider returns an empty answer the falsy-answer check fires and a
second, general-knowledge generation call is issued — two calls in total,
not exactly one. -/
theorem auto_high_relevance_two_calls :
    isSpecificQuery "explain gravity" = false ∧
    (generate_answer_from_docs (fun _ => GenOutcome.ok "") "explain gravity"
        [{ page_content := "a", score := some (mkRat 6 10) },
         { page_content := "b", score := some (mkRat 7 10) }]).1.relevance
      = some "high" ∧
    (intelligent_answer (fun _ => GenOutcome.ok "") "explain gravity"
        [{ page_content := "a", score := some (mkRat 6 10) },
         { page_content := "b", score := some (mkRat 7 10) }] "auto").2 = 2 := by
  refine ⟨by decide, by decide, by decide⟩

/-- Claim C2 (amended): for an auto call with documents and a non-specific
question, docs_only is probed first and relevance is classified from the
count of documents at or above the 0.5 threshold (zero: low, one: medium,
two or more: high); relevance low escalates to hybrid, and otherwise the
already-computed docs_only result is returned with exactly one generation
call in total — provided the generated answer is nonempty (an empty
generated answer instead triggers a second, general-knowledge call). -/
theorem auto_docs_first_no_duplicate_call
    (llm : Prompt → GenOutcome) (question : String) (documents : List Doc)
    (hspec : isSpecificQuery question = false)
    (hne : documents ≠ [])
    (hnonempty : ∀ p, pyStrip (llmText llm p) ≠ "") :
    (generate_answer_from_docs llm question documents).1.relevance =
      some (if (relevantDocs documents).length = 0 then "low"
        else if 2 ≤ (relevantDocs documents).length then "high" else "medium") ∧
    ((relevantDocs documents).length = 0 →
      (intelligent_answer llm question documents "auto").1.strategy_used = some "hybrid") ∧
    (1 ≤ (relevantDocs documents).length →
      intelligent_answer llm question documents "auto" =
        ({ (generate_answer_from_docs llm question documents).1 with
            strategy_used := some "docs_only" }, 1)) := by
  by_cases hfil : relevantDocs documents = []
  · have hlen : (relevantDocs documents).length = 0 := by rw [hfil]; rfl
    refine ⟨by rw [gafd_of_nil _ _ hfil, hlen]; rfl, fun _ => ?_, fun h => by omega⟩
    rw [ia_auto_of (autoResolve_probe_low hne hspec hfil), exec_hybrid hne]
  · have hlen : (relevantDocs documents).length ≠ 0 := by
      simpa [List.length_eq_zero] using hfil
    have hans : (generate_answer_from_docs llm question documents).1.answer.getD "" ≠ "" := by
      rw [gafd_of_ne_nil _ _ hfil]
      simpa using hnonempty (.doc question (docsContext documents))
    have hres : intelligent_answer llm question documents "auto" =
        ({ (generate_answer_from_docs llm question documents).1 with
            strategy_used := some "docs_only" }, 1) := by
      rw [ia_auto_of (autoResolve_probe_kept hne hspec hfil), exec_docs_kept hne hans]
      rfl
    refine ⟨?_, fun h => absurd h hlen, fun _ => hres⟩
    rw [gafd_of_ne_nil _ _ hfil]
    simp [hlen]

/-- Claim C2 witness: non-specific question, two documents at 0.6 and 0.7,
successful provider — relevance high, docs result kept, one call. -/
theorem auto_docs_first_no_duplicate_call_witness :
    ((generate_answer_from_docs (fun _ => GenOutcome.ok "ans") "explain gravity"
        [{ page_content := "a", score := some (mkRat 6 10) },
         { page_content := "b", score := some (mkRat 7 10) }]).1.relevance =
      some (if (relevantDocs [{ page_content := "a", score := some (mkRat 6 10) },
          { page_content := "b", score := some (mkRat 7 10) }]).length = 0 then "low"
        else if 2 ≤ (relevantDocs [{ page_content := "a", score := some (mkRat 6 10) },
          { page_content := "b", score := some (mkRat 7 10) }]).length then "high"
        else "medium")) ∧
    ((relevantDocs [({ page_content := "a", score := some (mkRat 6 10) } : Doc),
        { page_content := "b", score := some (mkRat 7 10) }]).length = 0 →
      (intelligent_answer (fun _ => GenOutcome.ok "ans") "explain gravity"
        [{ page_content := "a", score := some (mkRat 6 10) },
         { page_content := "b", score := some (mkRat 7 10) }] "auto").1.strategy_used
        = some "hybrid") ∧
    (1 ≤ (relevantDocs [({ page_content := "a", score := some (mkRat 6 10) } : Doc),
        { page_content := "b", score := some (mkRat 7 10) }]).length →
      intelligent_answer (fun _ => GenOutcome.ok "ans") "explain gravity"
        [{ page_content := "a", score := some (mkRat 6 10) },
         { page_content := "b", score := some (mkRat 7 10) }] "auto" =
        ({ (generate_answer_from_docs (fun _ => GenOutcome.ok "ans") "explain gravity"
            [{ page_content := "a", score := some (mkRat 6 10) },
             { page_content := "b", score := some (mkRat 7 10) }]).1 with
            strategy_used := some "docs_only" }, 1)) :=
  auto_docs_first_no_duplicate_call (fun _ => GenOutcome.ok "ans") "explain gravity"
    [{ page_content := "a", score := some (mkRat 6 10) },
     { page_content := "b", score := some (mkRat 7 10) }]
    (by decide) (by decide) (llm_const_ok_nonempty "ans" (by decide))

/-- Claim C5: the upload validation rejects an unsupported extension and an
oversize body before any Job row is added — but the endpoint's blanket
`except Exception` handler re-raises its own 400 `HTTPException` as a 500,
so the intended (and specified) 400-class status never reaches the client.
The last conjunct shows the 400 the code itself constructs. -/
theorem upload_rejects_as_500_without_job_row :
    upload_file "malware.exe" 100 =
      (.error (500, "400: File type \x27exe\x27 not supported. Allowed: [\x27pdf\x27, \x27docx\x27, \x27doc\x27, \x27txt\x27, \x27csv\x27, \x27xlsx\x27]"), false) ∧
    upload_file "notes.pdf" (10 * 1024 * 1024 + 1) =
      (.error (500, "400: File too large. Maximum size is 10MB"), false) ∧
    upload_file "notes.pdf" 100 = (.ok (), true) ∧
    uploadValidate "malware.exe" 100 =
      .error (400, "File type \x27exe\x27 not supported. Allowed: [\x27pdf\x27, \x27docx\x27, \x27doc\x27, \x27txt\x27, \x27csv\x27, \x27xlsx\x27]") :=
  ⟨rfl, rfl, rfl, rfl⟩

/-- Membership extraction from `getLast?`. -/
theorem mem_of_getLast? {α : Type} {l : List α} {a : α}
    (h : l.getLast? = some a) : a ∈ l := by
  obtain ⟨ys, rfl⟩ := List.getLast?_eq_some_iff.mp h
  simp

/-- A disabled vectorstore is a fixed point of the batch loop. -/
theorem foldl_stepBatch_stopped (ok : Nat → Nat → Bool) (docId n T : Nat)
    (l : List Nat) (st : BatchState) (h : st.vs = false) :
    l.foldl (stepBatch ok docId n T) st = st := by
  induction l with
  | nil => rfl
  | cons b bs ih =>
    rw [List.foldl_cons, stepBatch, if_neg (by simp [h])]
    exact ih

/-- The retry loop succeeds when some attempt succeeds. -/
theorem attemptBatch_succ_of {ok : Nat → Nat → Bool} {b : Nat}
    (h : ok b 0 = true ∨ ok b 1 = true) : (attemptBatch ok b).1 = true := by
  rw [attemptBatch]
  rcases h with h | h
  · rw [if_pos h]
  · by_cases h0 : ok b 0 = true
    · rw [if_pos h0]
    · rw [if_neg h0, if_pos h]

/-- The retry loop exhausts when both attempts fail. -/
theorem attemptBatch_fail_of {ok : Nat → Nat → Bool} {b : Nat}
    (h0 : ok b 0 = false) (h1 : ok b 1 = false) :
    attemptBatch ok b = (false, [(b, 0), (b, 1)]) := by
  rw [attemptBatch, if_neg (by simp [h0]), if_neg (by simp [h1])]

/-- One batch iteration, successful add. -/
theorem stepBatch_succ (ok : Nat → Nat → Bool) (docId n T : Nat)
    (st : BatchState) (b : Nat) (hvs : st.vs = true)
    (hok : (attemptBatch ok b).1 = true) :
    stepBatch ok docId n T st b =
      { vs := true, ids := st.ids ++ batchIds docId n b,
        updates := st.updates ++ [batchProgress T b],
        calls := st.calls ++ (attemptBatch ok b).2 } := by
  simp only [stepBatch, hvs, hok, if_true]

/-- One batch iteration, retries exhausted. -/
theorem stepBatch_fail (ok : Nat → Nat → Bool) (docId n T : Nat)
    (st : BatchState) (b : Nat) (hvs : st.vs = true)
    (hok : (attemptBatch ok b).1 = false) :
    stepBatch ok docId n T st b =
      { vs := false, ids := st.ids, updates := st.updates,
        calls := st.calls ++ (attemptBatch ok b).2 } := by
  simp only [stepBatch, hvs, hok, if_true, Bool.false_eq_true, if_false]

/-- A batch index below the total covers exactly `batch_size` chunks. -/
theorem batchIds_full (docId n b : Nat) (h : batch_size * (b + 1) ≤ n) :
    batchIds docId n b =
      (List.range' (batch_size * b) batch_size).map (fun j => s!"{docId}_{j}") := by
  rw [batchIds, min_eq_left h, Nat.mul_succ, Nat.add_sub_cancel_left]

/-- Batches strictly before the total exist in full. -/
theorem batch_mul_lt {n b : Nat} (h : b < total_batches n) :
    batch_size * (b + 1) ≤ n ∨ batch_size * b < n := by
  simp only [total_batches, batch_size] at h ⊢
  omega

/-- The chunk count strictly exceeds the start of every existing batch. -/
theorem batch_start_lt {n b : Nat} (h : b < total_batches n) :
    batch_size * b < n := by
  simp only [total_batches, batch_size] at h ⊢
  omega

/-- Batches strictly before another existing batch are full. -/
theorem batch_full_of_lt {n b b0 : Nat} (hb : b < b0) (h : b0 < total_batches n) :
    batch_size * (b + 1) ≤ n := by
  simp only [total_batches, batch_size] at h ⊢
  omega

/-- The batch loop up to (but excluding) the first exhausting batch keeps
the vectorstore, indexes every chunk seen, and logs only earlier batches. -/
theorem runBatches_upto (ok : Nat → Nat → Bool) (docId n b0 : Nat)
    (hb : b0 < total_batches n)
    (hpre : ∀ b < b0, ok b 0 = true ∨ ok b 1 = true) :
    ∀ k, k ≤ b0 →
      (List.range k).foldl (stepBatch ok docId n (total_batches n))
          { vs := true, ids := [], updates := [], calls := [] } =
        { vs := true,
          ids := (List.range (batch_size * k)).map fun j => s!"{docId}_{j}",
          updates := (List.range k).map (batchProgress (total_batches n)),
          calls := (List.range k).flatMap fun b => (attemptBatch ok b).2 } := by
  intro k
  induction k with
  | zero => intro _; rfl
  | succ k ih =>
    intro hk1
    have hk : k ≤ b0 := Nat.le_of_succ_le hk1
    have hkb : k < b0 := hk1
    rw [List.range_succ, List.foldl_append, List.foldl_cons, List.foldl_nil, ih hk]
    have hsucc : (attemptBatch ok k).1 = true :=
      attemptBatch_succ_of (hpre k hkb)
    rw [stepBatch_succ _ _ _ _ _ _ rfl hsucc]
    have hfull : batch_size * (k + 1) ≤ n := batch_full_of_lt hkb hb
    dsimp only
    congr 1
    · rw [batchIds_full _ _ _ hfull, List.range'_eq_map_range, List.map_map]
      rw [Nat.mul_succ, List.range_add, List.map_append, List.map_map]
    · rw [List.map_append, List.map_singleton]
    · simp [List.flatMap_append]

/-- Once the first batch exhausts its retries, the loop ends with the
vectorstore disabled, exactly the earlier batches' identifiers, and no
add attempt beyond the failing batch. -/
theorem runBatches_first_fail (ok : Nat → Nat → Bool) (docId n b0 : Nat)
    (hb : b0 < total_batches n)
    (hpre : ∀ b < b0, ok b 0 = true ∨ ok b 1 = true)
    (h0 : ok b0 0 = false) (h1 : ok b0 1 = false) :
    (runBatches ok docId n).vs = false ∧
    (runBatches ok docId n).ids =
      (List.range (batch_size * b0)).map (fun j => s!"{docId}_{j}") ∧
    ∀ p ∈ (runBatches ok docId n).calls, p.1 ≤ b0 := by
  have hsplit : List.range (total_batches n) =
      List.range (b0 + 1) ++
        List.map (fun x => (b0 + 1) + x) (List.range (total_batches n - (b0 + 1))) := by
    rw [← List.range_add]
    congr 1
    omega
  have hupto := runBatches_upto ok docId n b0 hb hpre b0 le_rfl
  have hfailstep : (List.range (b0 + 1)).foldl
      (stepBatch ok docId n (total_batches n))
      { vs := true, ids := [], updates := [], calls := [] } =
      { vs := false,
        ids := (List.range (batch_size * b0)).map fun j => s!"{docId}_{j}",
        updates := (List.range b0).map (batchProgress (total_batches n)),
        calls := ((List.range b0).flatMap fun b => (attemptBatch ok b).2)
          ++ [(b0, 0), (b0, 1)] } := by
    rw [List.range_succ, List.foldl_append, List.foldl_cons, List.foldl_nil, hupto]
    rw [stepBatch_fail _ _ _ _ _ _ rfl (by rw [attemptBatch_fail_of h0 h1])]
    rw [attemptBatch_fail_of h0 h1]
  rw [runBatches, hsplit, List.foldl_append, hfailstep,
    foldl_stepBatch_stopped _ _ _ _ _ _ rfl]
  refine ⟨rfl, rfl, ?_⟩
  intro p hp
  simp only [List.mem_append, List.mem_flatMap] at hp
  rcases hp with ⟨b, hb', hpb⟩ | hp
  · have hblt : b < b0 := List.mem_range.mp hb'
    have hpbeq : p.1 = b := by
      rcases hpre b hblt with h | h
      · rw [attemptBatch, if_pos h] at hpb
        simp only [List.mem_cons, List.not_mem_nil, or_false] at hpb
        rw [hpb]
      · rw [attemptBatch] at hpb
        by_cases hb0 : ok b 0 = true
        · rw [if_pos hb0] at hpb
          simp only [List.mem_cons, List.not_mem_nil, or_false] at hpb
          rw [hpb]
        · rw [if_neg hb0, if_pos h] at hpb
          simp only [List.mem_cons, List.not_mem_nil, or_false] at hpb
          rcases hpb with hpb | hpb <;> rw [hpb]
    omega
  · simp only [List.mem_cons, List.not_mem_nil, or_false] at hp
    rcases hp with hp | hp <;> rw [hp]

/-- `process_document` on the successful, vectorstore-enabled path. -/
theorem process_document_success_eq (ok : Nat → Nat → Bool) (text : String)
    (splitText : String → List String) (docId : Nat)
    (htext : ¬ pyStrip text = "") (hchunks : ¬ splitText text = []) :
    process_document true ok (.ok text) splitText docId =
      { result := { success := true, chunk_count := (splitText text).length,
                    vector_ids := (runBatches ok docId (splitText text).length).ids,
                    text_length := some (pyLen text) },
        updates := [5, 25, 30, 40, 50] ++
          (runBatches ok docId (splitText text).length).updates ++ [95, 100],
        vsAfter := (runBatches ok docId (splitText text).length).vs,
        addCalls := (runBatches ok docId (splitText text).length).calls } := by
  simp only [process_document, htext, hchunks, if_false, if_true, ite_true, ite_false]

/-- A disabled processor never calls `add_documents` and indexes nothing. -/
theorem process_document_disabled_no_adds (ok : Nat → Nat → Bool)
    (extracted : Except String String) (splitText : String → List String)
    (docId : Nat) :
    (process_document false ok extracted splitText docId).addCalls = [] ∧
    (process_document false ok extracted splitText docId).result.vector_ids = [] := by
  refine ⟨?_, ?_⟩ <;>
  · cases extracted with
    | error e => rfl
    | ok text =>
      by_cases htext : pyStrip text = "" <;>
        by_cases hchunks : splitText text = [] <;>
          simp [process_document, htext, hchunks, failResult]

/-- Claim C9: once a batch exhausts its retries the vectorstore is unset for
good: no later batch of the same job is attempted, the job ends with the
processor disabled so any subsequent job in the same process issues zero
add attempts, and a processor as built by the constructor (which treats the
index dimensionality mismatch detected at startup as permanent) never
attempts an add at all. -/
theorem indexing_disabled_permanently
    (ok : Nat → Nat → Bool) (text : String) (splitText : String → List String)
    (docId b0 : Nat)
    (htext : ¬ pyStrip text = "") (hchunks : ¬ splitText text = [])
    (hb : b0 < total_batches (splitText text).length)
    (hpre : ∀ b < b0, ok b 0 = true ∨ ok b 1 = true)
    (h0 : ok b0 0 = false) (h1 : ok b0 1 = false) :
    (process_document true ok (.ok text) splitText docId).vsAfter = false ∧
    (∀ p ∈ (process_document true ok (.ok text) splitText docId).addCalls, p.1 ≤ b0) ∧
    (∀ (ok2 : Nat → Nat → Bool) (extracted2 : Except String String)
        (splitText2 : String → List String) (docId2 : Nat),
      (process_document (process_document true ok (.ok text) splitText docId).vsAfter
        ok2 extracted2 splitText2 docId2).addCalls = []) ∧
    (∀ (ok2 : Nat → Nat → Bool) (extracted2 : Except String String)
        (splitText2 : String → List String) (docId2 : Nat),
      (process_document init_vectorstore_available ok2 extracted2 splitText2
        docId2).addCalls = []) := by
  obtain ⟨hvs, _, hcalls⟩ := runBatches_first_fail ok docId
    (splitText text).length b0 hb hpre h0 h1
  have hproc := process_document_success_eq ok text splitText docId htext hchunks
  refine ⟨by rw [hproc]; exact hvs, by rw [hproc]; exact hcalls, ?_, ?_⟩
  · intro ok2 extracted2 splitText2 docId2
    rw [hproc]
    show (process_document (runBatches ok docId (splitText text).length).vs
      ok2 extracted2 splitText2 docId2).addCalls = []
    rw [hvs]
    exact (process_document_disabled_no_adds ok2 extracted2 splitText2 docId2).1
  · intro ok2 extracted2 splitText2 docId2
    exact (process_document_disabled_no_adds ok2 extracted2 splitText2 docId2).1

/-- Claim C9 witness: three chunks, the very first batch exhausting its two
attempts. -/
theorem indexing_disabled_permanently_witness :
    (process_document true (fun _ _ => false) (.ok "hello")
        (fun _ => ["a", "b", "c"]) 1).vsAfter = false ∧
    (∀ p ∈ (process_document true (fun _ _ => false) (.ok "hello")
        (fun _ => ["a", "b", "c"]) 1).addCalls, p.1 ≤ 0) ∧
    (∀ (ok2 : Nat → Nat → Bool) (extracted2 : Except String String)
        (splitText2 : String → List String) (docId2 : Nat),
      (process_document (process_document true (fun _ _ => false) (.ok "hello")
        (fun _ => ["a", "b", "c"]) 1).vsAfter
        ok2 extracted2 splitText2 docId2).addCalls = []) ∧
    (∀ (ok2 : Nat → Nat → Bool) (extracted2 : Except String String)
        (splitText2 : String → List String) (docId2 : Nat),
      (process_document init_vectorstore_available ok2 extracted2 splitText2
        docId2).addCalls = []) :=
  indexing_disabled_permanently (fun _ _ => false) "hello" (fun _ => ["a", "b", "c"])
    1 0 (by decide) (by decide) (by decide) (by omega) rfl rfl


/-- Claim C4 fails as stated: with 10 chunks (two batches of 5) where the
first batch indexes fine and the second exhausts its retries, the job
completes with 5 of 10 vector identifiers — neither empty nor equal to the
chunk count — and the stored metadata (text length, timestamps) carries no
degraded-mode reason. -/
theorem degraded_job_partial_vector_ids :
    (process_document_background true (fun b _ => b == 0) (.ok "hello")
        (fun _ => (List.range 10).map toString) 1).row =
      { processing_status := "completed", chunk_count := some 10,
        vector_ids := some ["1_0", "1_1", "1_2", "1_3", "1_4"],
        meta_error := none, meta_text_length := some 5 } := by
  decide

/-- Claim C4 (amended): a job whose batch indexing exhausts its retries
does not fail — its status is completed with a positive chunk count and no
degraded reason in the metadata — but vector_ids holds exactly the
identifiers of the batches indexed before the first failing batch (empty
only when the first batch fails), so a terminal vector-identifier count may
lie strictly between 0 and the chunk count. -/
theorem degraded_completion_batch_prefix
    (ok : Nat → Nat → Bool) (text : String) (splitText : String → List String)
    (docId b0 : Nat)
    (htext : ¬ pyStrip text = "") (hchunks : ¬ splitText text = [])
    (hb : b0 < total_batches (splitText text).length)
    (hpre : ∀ b < b0, ok b 0 = true ∨ ok b 1 = true)
    (h0 : ok b0 0 = false) (h1 : ok b0 1 = false) :
    (process_document_background true ok (.ok text) splitText docId).row =
      { processing_status := "completed",
        chunk_count := some (splitText text).length,
        vector_ids := some ((List.range (batch_size * b0)).map fun j => s!"{docId}_{j}"),
        meta_error := none,
        meta_text_length := some (pyLen text) } ∧
    0 < (splitText text).length ∧
    batch_size * b0 < (splitText text).length := by
  obtain ⟨hvs, hids, _⟩ := runBatches_first_fail ok docId
    (splitText text).length b0 hb hpre h0 h1
  have hproc := process_document_success_eq ok text splitText docId htext hchunks
  refine ⟨?_, ?_, batch_start_lt hb⟩
  · rw [process_document_background, hproc]
    simp only [hids, if_true]
  · have := batch_start_lt hb
    simp only [batch_size] at this
    omega

/-- Claim C4 witness: the same two-batch configuration through the amended
statement. -/
theorem degraded_completion_batch_prefix_witness :
    (process_document_background true (fun b _ => b == 0) (.ok "hello")
        (fun _ => (List.range 10).map toString) 1).row =
      { processing_status := "completed",
        chunk_count := some ((List.range 10).map toString).length,
        vector_ids := some ((List.range (batch_size * 1)).map fun j => s!"{(1:Nat)}_{j}"),
        meta_error := none,
        meta_text_length := some (pyLen "hello") } ∧
    0 < ((List.range 10).map toString).length ∧
    batch_size * 1 < ((List.range 10).map toString).length :=
  degraded_completion_batch_prefix (fun b _ => b == 0) "hello"
    (fun _ => (List.range 10).map toString) 1 1
    (by decide) (by decide) (by decide) (by decide) rfl rfl

/-- The batch loop either leaves the updates untouched or appends the
batch's progress value. -/
theorem stepBatch_updates_cases (ok : Nat → Nat → Bool) (docId n T : Nat)
    (st : BatchState) (b : Nat) :
    (stepBatch ok docId n T st b).updates = st.updates ∨
    (stepBatch ok docId n T st b).updates = st.updates ++ [batchProgress T b] := by
  by_cases hvs : st.vs = true
  · by_cases hok : (attemptBatch ok b).1 = true
    · right; rw [stepBatch_succ _ _ _ _ _ _ hvs hok]
    · left; rw [stepBatch_fail _ _ _ _ _ _ hvs (by simpa using hok)]
  · left; rw [stepBatch, if_neg hvs]

/-- Invariant of the batch loop: the emitted progress values form a
non-decreasing chain bounded by the running batch count. -/
theorem runBatches_updates_aux (ok : Nat → Nat → Bool) (docId n : Nat) :
    ∀ k,
      List.Chain' (· ≤ ·) (((List.range k).foldl
        (stepBatch ok docId n (total_batches n))
        { vs := true, ids := [], updates := [], calls := [] }).updates) ∧
      ∀ u ∈ ((List.range k).foldl (stepBatch ok docId n (total_batches n))
          { vs := true, ids := [], updates := [], calls := [] }).updates,
        50 ≤ u ∧ u ≤ 50 + (k * 40) / total_batches n := by
  intro k
  induction k with
  | zero => exact ⟨List.chain'_nil, by intro u hu; exact absurd hu (List.not_mem_nil u)⟩
  | succ k ih =>
    obtain ⟨hchain, hbound⟩ := ih
    have hmono : 50 + (k * 40) / total_batches n ≤
        50 + ((k + 1) * 40) / total_batches n := by
      have := Nat.div_le_div_right (c := total_batches n)
        (Nat.mul_le_mul_right (n := k) (m := k + 1) 40 (by omega))
      omega
    rw [List.range_succ, List.foldl_append, List.foldl_cons, List.foldl_nil]
    rcases stepBatch_updates_cases ok docId n (total_batches n) _ k with hstep | hstep <;>
      rw [hstep]
    · exact ⟨hchain, fun u hu => ⟨(hbound u hu).1, le_trans (hbound u hu).2 hmono⟩⟩
    · constructor
      · rw [List.chain'_append]
        refine ⟨hchain, List.chain'_singleton _, ?_⟩
        intro x hx y hy
        have hx' := mem_of_getLast? hx
        have hxb := (hbound x hx').2
        have hy' : y = batchProgress (total_batches n) k := by
          simp only [List.head?_cons, Option.mem_def, Option.some.injEq] at hy
          exact hy.symm
        rw [hy', batchProgress]
        omega
      · intro u hu
        rw [List.mem_append] at hu
        rcases hu with hu | hu
        · exact ⟨(hbound u hu).1, le_trans (hbound u hu).2 hmono⟩
        · rw [List.mem_singleton] at hu
          subst hu
          rw [batchProgress]
          exact ⟨Nat.le_add_right 50 _, le_rfl⟩

/-- The batch-phase progress values are a non-decreasing chain inside
[50, 90]. -/
theorem runBatches_updates_chain (ok : Nat → Nat → Bool) (docId n : Nat) :
    List.Chain' (· ≤ ·) (runBatches ok docId n).updates ∧
    ∀ u ∈ (runBatches ok docId n).updates, 50 ≤ u ∧ u ≤ 90 := by
  obtain ⟨hc, hb⟩ := runBatches_updates_aux ok docId n (total_batches n)
  refine ⟨hc, fun u hu => ⟨(hb u hu).1, ?_⟩⟩
  have h2 := (hb u hu).2
  by_cases hT : total_batches n = 0
  · rw [runBatches, hT] at hu
    exact absurd hu (List.not_mem_nil u)
  · have hTpos : 0 < total_batches n := Nat.pos_of_ne_zero hT
    have h40 : total_batches n * 40 / total_batches n = 40 :=
      Nat.mul_div_cancel_left 40 hTpos
    rw [h40] at h2
    omega

/-- A progress-store record reads completed exactly when it reads 100,
provided the recorded percentage never exceeds 100. -/
theorem upd_completed_iff (u : Nat) (hu : u ≤ 100) :
    ((update_document_progress u).status = "completed" ↔
      (update_document_progress u).progress = 100) := by
  simp only [update_document_progress]
  split_ifs with h
  · constructor
    · intro hc; exact absurd hc (by decide)
    · intro hp; exact absurd hp (by omega)
  · constructor
    · intro _; omega
    · intro _; rfl

/-- The completed-iff-100 reading, lifted over a mapped update list. -/
theorem trace_status_iff (l : List Nat) (hl : ∀ u ∈ l, u ≤ 100) :
    ∀ r ∈ l.map update_document_progress,
      (r.status = "completed" ↔ r.progress = 100) := by
  intro r hr
  rw [List.mem_map] at hr
  obtain ⟨u, hu, rfl⟩ := hr
  exact upd_completed_iff u (hl u hu)

/-- A non-decreasing update sequence maps to a progressMono chain. -/
theorem chain'_progressMono_map (l : List Nat) (h : List.Chain' (· ≤ ·) l) :
    List.Chain' progressMono (l.map update_document_progress) := by
  rw [List.chain'_map]
  exact h.imp fun a b hab => fun _ => hab

/-- Prefixing a zero-progress record preserves the progressMono chain. -/
theorem chain'_progressMono_cons (l : List Nat) (h : List.Chain' (· ≤ ·) l)
    (r : ProgRec) (hr : r.progress = 0) :
    List.Chain' progressMono (r :: l.map update_document_progress) := by
  rw [List.chain'_cons']
  refine ⟨?_, chain'_progressMono_map l h⟩
  intro y _ _
  rw [hr]
  exact Nat.zero_le _

/-- The update sequence of a successful vectorstore-enabled run is a
non-decreasing chain. -/
theorem chain_le_full (bu : List Nat) (hc : List.Chain' (· ≤ ·) bu)
    (hb : ∀ u ∈ bu, 50 ≤ u ∧ u ≤ 90) :
    List.Chain' (· ≤ ·)
      ((1 :: ([5, 25, 30, 40, 50] ++ (bu ++ [95, 100]))) ++ [100]) := by
  have hnorm : ((1 :: ([5, 25, 30, 40, 50] ++ (bu ++ [95, 100]))) ++ [100] : List Nat) =
      [1, 5, 25, 30, 40, 50] ++ (bu ++ [95, 100, 100]) := by simp
  rw [hnorm, List.chain'_append]
  refine ⟨by simp [List.chain'_cons], ?_, ?_⟩
  · rw [List.chain'_append]
    refine ⟨hc, by simp [List.chain'_cons], ?_⟩
    intro x hx y hy
    have hx' := mem_of_getLast? hx
    have hxb := (hb x hx').2
    simp only [List.head?_cons, Option.mem_def, Option.some.injEq] at hy
    omega
  · intro x hx y hy
    have hx' : x = 50 := by
      have : ([1, 5, 25, 30, 40, 50] : List Nat).getLast? = some 50 := by decide
      rw [this, Option.mem_def, Option.some.injEq] at hx
      exact hx.symm
    subst hx'
    cases bu with
    | nil =>
      simp only [List.nil_append, List.head?_cons, Option.mem_def,
        Option.some.injEq] at hy
      omega
    | cons b bs =>
      simp only [List.cons_append, List.head?_cons, Option.mem_def,
        Option.some.injEq] at hy
      subst hy
      exact (hb b (by simp)).1

/-- Every update of a successful vectorstore-enabled run is at most 100. -/
theorem full_updates_bound (bu : List Nat) (hb : ∀ u ∈ bu, 50 ≤ u ∧ u ≤ 90) :
    ∀ u ∈ ((1 :: ([5, 25, 30, 40, 50] ++ (bu ++ [95, 100]))) ++ [100] : List Nat),
      u ≤ 100 := by
  intro u hu
  simp only [List.mem_append, List.mem_cons, List.not_mem_nil, or_false] at hu
  rcases hu with (rfl | hu) | rfl
  · omega
  · rcases hu with (rfl | rfl | rfl | rfl | rfl) | hu | (rfl | rfl)
    · omega
    · omega
    · omega
    · omega
    · omega
    · exact le_trans (hb u hu).2 (by omega)
    · omega
    · omega
  · omega

/-- Claim C6: for every job, the progress-store trace is monotonically
non-decreasing except for the reset-to-failed overwrite; a record reads
completed exactly when its percentage is exactly 100; every run terminates
completed or failed; a successful run ends at the 100/completed record and
a failing run ends at the failed record (written with percentage 0, which
the claim leaves unconstrained). -/
theorem progress_monotone_and_terminal
    (vs : Bool) (ok : Nat → Nat → Bool) (extracted : Except String String)
    (splitText : String → List String) (docId : Nat) (bg : BackgroundOutput)
    (hbg : bg = process_document_background vs ok extracted splitText docId) :
    List.Chain' progressMono bg.trace ∧
    (∀ r ∈ bg.trace, (r.status = "completed" ↔ r.progress = 100)) ∧
    (bg.row.processing_status = "completed" ∨ bg.row.processing_status = "failed") ∧
    bg.trace.getLast? = some (if bg.row.processing_status = "failed"
      then { progress := 0, status := "failed" }
      else { progress := 100, status := "completed" }) := by
  subst hbg
  cases extracted with
  | error e =>
    have htr : (process_document_background vs ok (.error e) splitText docId).trace =
        [⟨0, "pending"⟩, ⟨1, "processing"⟩, ⟨5, "processing"⟩, ⟨0, "failed"⟩] := rfl
    have hst : (process_document_background vs ok (.error e) splitText
        docId).row.processing_status = "failed" := rfl
    refine ⟨?_, ?_, Or.inr hst, ?_⟩
    · rw [htr]
      simp [List.chain'_cons, progressMono]
    · rw [htr]
      decide
    · rw [htr, hst, if_pos rfl]
      rfl
  | ok text =>
    by_cases hstrip : pyStrip text = ""
    · have hpd : process_document vs ok (.ok text) splitText docId =
          { result := failResult "No text content extracted from file",
            updates := [5, 25], vsAfter := vs, addCalls := [] } := by
        simp [process_document, hstrip]
      have htr : (process_document_background vs ok (.ok text) splitText docId).trace =
          [⟨0, "pending"⟩, ⟨1, "processing"⟩, ⟨5, "processing"⟩,
            ⟨25, "processing"⟩, ⟨0, "failed"⟩] := by
        rw [process_document_background, hpd]
        rfl
      have hst : (process_document_background vs ok (.ok text) splitText
          docId).row.processing_status = "failed" := by
        rw [process_document_background, hpd]
        rfl
      refine ⟨?_, ?_, Or.inr hst, ?_⟩
      · rw [htr]
        simp [List.chain'_cons, progressMono]
      · rw [htr]
        decide
      · rw [htr, hst, if_pos rfl]
        rfl
    · by_cases hchunks : splitText text = []
      · have hpd : process_document vs ok (.ok text) splitText docId =
            { result := failResult "No chunks created from text content",
              updates := [5, 25, 30, 40], vsAfter := vs, addCalls := [] } := by
          simp [process_document, hstrip, hchunks]
        have htr : (process_document_background vs ok (.ok text) splitText docId).trace =
            [⟨0, "pending"⟩, ⟨1, "processing"⟩, ⟨5, "processing"⟩,
              ⟨25, "processing"⟩, ⟨30, "processing"⟩, ⟨40, "processing"⟩,
              ⟨0, "failed"⟩] := by
          rw [process_document_background, hpd]
          rfl
        have hst : (process_document_background vs ok (.ok text) splitText
            docId).row.processing_status = "failed" := by
          rw [process_document_background, hpd]
          rfl
        refine ⟨?_, ?_, Or.inr hst, ?_⟩
        · rw [htr]
          simp [List.chain'_cons, progressMono]
        · rw [htr]
          decide
        · rw [htr, hst, if_pos rfl]
          rfl
      · cases vs with
        | false =>
          have hpd : process_document false ok (.ok text) splitText docId =
              { result :=
                  { success := true, chunk_count := (splitText text).length,
                    vector_ids := [], text_length := some (pyLen text) },
                updates := [5, 25, 30, 40, 50, 95, 100], vsAfter := false,
                addCalls := [] } := by
            simp [process_document, hstrip, hchunks]
          have htr : (process_document_background false ok (.ok text) splitText
              docId).trace =
              [⟨0, "pending"⟩, ⟨1, "processing"⟩, ⟨5, "processing"⟩,
                ⟨25, "processing"⟩, ⟨30, "processing"⟩, ⟨40, "processing"⟩,
                ⟨50, "processing"⟩, ⟨95, "processing"⟩, ⟨100, "completed"⟩,
                ⟨100, "completed"⟩] := by
            rw [process_document_background, hpd]
            rfl
          have hst : (process_document_background false ok (.ok text) splitText
              docId).row.processing_status = "completed" := by
            rw [process_document_background, hpd]
            rfl
          refine ⟨?_, ?_, Or.inl hst, ?_⟩
          · rw [htr]
            simp [List.chain'_cons, progressMono]
          · rw [htr]
            decide
          · rw [htr, hst, if_neg (by decide)]
            rfl
        | true =>
          have hproc := process_document_success_eq ok text splitText docId
            hstrip hchunks
          obtain ⟨hchain, hbound⟩ :=
            runBatches_updates_chain ok docId (splitText text).length
          have htr : (process_document_background true ok (.ok text) splitText
              docId).trace =
              ⟨0, "pending"⟩ ::
                ((1 :: ([5, 25, 30, 40, 50] ++
                  ((runBatches ok docId (splitText text).length).updates ++
                    [95, 100]))) ++ [100]).map update_document_progress := by
            rw [process_document_background, hproc]
            rfl
          have hst : (process_document_background true ok (.ok text) splitText
              docId).row.processing_status = "completed" := by
            rw [process_document_background, hproc]
            rfl
          refine ⟨?_, ?_, Or.inl hst, ?_⟩
          · rw [htr]
            exact chain'_progressMono_cons _ (chain_le_full _ hchain hbound) _ rfl
          · rw [htr]
            intro r hr
            rcases List.mem_cons.mp hr with rfl | hr
            · exact ⟨fun hc => absurd hc (by decide), fun hp => absurd hp (by decide)⟩
            · exact trace_status_iff _ (full_updates_bound _ hbound) r hr
          · rw [htr, hst, if_neg (by decide), List.map_append, List.map_singleton,
              ← List.cons_append, List.getLast?_concat]
            rfl

/-- Claim C6 witness: ten chunks, every batch indexing successfully. -/
theorem progress_monotone_and_terminal_witness :
    List.Chain' progressMono (process_document_background true (fun _ _ => true)
      (.ok "hello") (fun _ => (List.range 10).map toString) 1).trace ∧
    (∀ r ∈ (process_document_background true (fun _ _ => true) (.ok "hello")
        (fun _ => (List.range 10).map toString) 1).trace,
      (r.status = "completed" ↔ r.progress = 100)) ∧
    ((process_document_background true (fun _ _ => true) (.ok "hello")
        (fun _ => (List.range 10).map toString) 1).row.processing_status = "completed" ∨
      (process_document_background true (fun _ _ => true) (.ok "hello")
        (fun _ => (List.range 10).map toString) 1).row.processing_status = "failed") ∧
    (process_document_background true (fun _ _ => true) (.ok "hello")
        (fun _ => (List.range 10).map toString) 1).trace.getLast? =
      some (if (process_document_background true (fun _ _ => true) (.ok "hello")
          (fun _ => (List.range 10).map toString) 1).row.processing_status = "failed"
        then { progress := 0, status := "failed" }
        else { progress := 100, status := "completed" }) :=
  progress_monotone_and_terminal true (fun _ _ => true) (.ok "hello")
    (fun _ => (List.range 10).map toString) 1 _ rfl


end RagModel
